import Mathlib

/-!
Shallow embedding of `src/core/sawtooth/cli/cluster.py` (the cluster CLI of
the sawtooth SDK): the `do_cluster_start`, `do_cluster_stop` and
`do_cluster_status` commands, together with the persisted `state.yaml`
document they read and write.

The persisted YAML document has top-level keys `State`, `Manage` and `Nodes`.
`Manage` may be entirely absent from an older document, or present with a
null value; both situations are observable in `do_cluster_stop` (a missing
key raises a `KeyError` on `state['Manage']`, while a null value passes the
`state['Manage'] is None` test), so the model keeps them apart:
`manage : Option (Option String)` with `none` = key absent and
`some none` = key present with value null.

The external driver layer (`ValidatorNetworkManager`, the node controllers
and `SimpleNodeCommandGenerator`) is not part of the source slice; it enters
the model as an environment record whose fields give the responses of the
driver calls the CLI makes (`get_node_names`, `is_running`, `update`) and,
modelled from the spec, the per-name stop/status operations.
-/

namespace SawtoothCluster

/-- Decimal digit as a character, `48 + d` is the ASCII code. -/
def digitChar (d : Nat) : Char := Char.ofNat (48 + d)

/-- Decimal representation of a natural number as a list of characters,
mirroring Python `str(i)`; fuel-structured so that it reduces by `decide`.
The fuel `n + 1` always suffices since the argument strictly decreases. -/
def decChars : Nat → Nat → List Char
  | 0, _ => []
  | fuel + 1, n =>
    if n < 10 then [digitChar n]
    else decChars fuel (n / 10) ++ [digitChar (n % 10)]

/-- Decimal characters of `n`, i.e. Python `str(n)`. -/
def decimalChars (n : Nat) : List Char := decChars (n + 1) n

/-- Left-pad a character list with `'0'` to width 3, mirroring the Python
format spec `{:0>3}`. -/
def padZero3 (s : List Char) : List Char := List.replicate (3 - s.length) '0' ++ s

/-- The deterministic node name for ordinal `i`: Python
`"validator-{:0>3}".format(i)`. -/
def nodeName (i : Nat) : String :=
  String.mk ("validator-".data ++ padZero3 (decimalChars i))

/-- One entry of the persisted `Nodes` mapping: `{"Status": ..., "Index": ...}`. -/
structure NodeRecord where
  status : String
  index : Nat
deriving Repr, DecidableEq

/-- The persisted `state.yaml` document. `manage = none` models a document
with no `Manage` key; `manage = some none` models `Manage: null`. -/
structure ClusterState where
  stateField : String
  manage : Option (Option String)
  nodes : List (String × NodeRecord)
deriving Repr, DecidableEq

/-- The state built by `do_cluster_start` when reading `state.yaml` raises
`IOError`: `{"State": "Stopped"}` (the `Nodes` key is only added by the
Stopped-reset that immediately follows, so starting it at `[]` is
indistinguishable). -/
def freshState : ClusterState :=
  { stateField := "Stopped", manage := none, nodes := [] }

/-- Python dict assignment `m[k] = v` on the `Nodes` mapping: replace the
binding in place when the key is present (dict keys are unique, so the
first occurrence is the only one), append it at the end otherwise —
matching the insertion-order semantics of a Python dict. -/
def dictSet : List (String × NodeRecord) → String → NodeRecord →
    List (String × NodeRecord)
  | [], k, v => [(k, v)]
  | (k', w) :: rest, k, v =>
    if k' = k then (k, v) :: rest else (k', w) :: dictSet rest k v

/-- Python dict lookup `m[k]` on the `Nodes` mapping, as an `Option`. -/
def lookupNode : List (String × NodeRecord) → String → Option NodeRecord
  | [], _ => none
  | (k', v) :: rest, k => if k' = k then some v else lookupNode rest k

/-- Errors raised by the cluster commands. Each constructor corresponds to a
distinct raise site in the source: `conflict` is the
`'Cannot use two different Manage types. Already running ...'` CliException,
`invalidManage` the `'invalid management type'` CliException, `mgmt` a
wrapped or uncaught `ManagementError`, `ioError` the CliException raised
when `state.yaml` cannot be read in `do_cluster_stop`, and `keyError` an
uncaught Python `KeyError` from a dict lookup on a missing key. -/
inductive CliErr
  | conflict (recorded : Option String)
  | invalidManage
  | mgmt (msg : String)
  | ioError
  | keyError (key : String)
deriving Repr, DecidableEq

/-- A `node_command_generator.start(...)` call with its arguments. -/
structure StartAction where
  name : String
  http_port : Nat
  gossip_port : Nat
  genesis : Bool
deriving Repr, DecidableEq

/-- Responses of the external driver layer for one command invocation.
`get_node_names`, `is_running` and `update` correspond to the
`ValidatorNetworkManager` calls made in the source. `stop_node` and
`status_node` are the per-name operations of the stop/status fan-out loops;
their implementations (`SimpleNodeCommandGenerator.stop`, `vnm.status`) are
outside the source slice. Modelled from the spec: per §6/§7 the driver-level
per-name operations may fail with a `DriverError`, so both are
`Except`-valued. -/
structure DriverEnv where
  get_node_names : Except String (List String)
  is_running : String → Bool
  update : Except String Unit
  stop_node : String → Except String Unit
  status_node : String → Except String String

/-- Arguments of `cluster start`: `--count` (a Python `int`, possibly
non-positive) and `--manage`. -/
structure StartArgs where
  count : Int
  manage : Option String
deriving Repr, DecidableEq

/-- Observable outcome of `do_cluster_start`: the `start` actions issued
through the command generator in order, the document written to
`state.yaml` (`none` when the command raised before the write), and the
error it raised, if any. -/
structure StartResult where
  actions : List StartAction
  saved : Option ClusterState
  error : Option CliErr
deriving Repr, DecidableEq

/-- The `Manage` resolution block of `do_cluster_start`:
`if "Manage" not in state: state['Manage'] = args.manage if args.manage is
not None else 'docker'` and the `elif` raising the two-Manage-types
CliException when a different backend is requested while `State` is
`Running`. -/
def resolveManage (args : StartArgs) (state1 : ClusterState) :
    Except CliErr ClusterState :=
  match state1.manage with
  | none => .ok { state1 with manage := some (some (args.manage.getD "docker")) }
  | some recorded =>
    match args.manage with
    | some a =>
      if recorded ≠ some a ∧ state1.stateField = "Running" then
        .error (.conflict recorded)
      else .ok state1
    | none => .ok state1

/-- One iteration of the `for i in xrange(0, args.count)` loop of
`do_cluster_start`, acting on the accumulated `(actions, Nodes)` pair:
skip the ordinal when its name is already known to the driver and running,
otherwise issue a start action (genesis iff `i == 0`, fixed ports) and
record the node as Running with its index. -/
def startLoopStep (env : DriverEnv) (existing : List String)
    (acc : List StartAction × List (String × NodeRecord)) (i : Nat) :
    List StartAction × List (String × NodeRecord) :=
  let node_name := nodeName i
  if node_name ∈ existing ∧ env.is_running node_name = true then acc
  else
    (acc.1 ++ [{ name := node_name, http_port := 8800, gossip_port := 5500,
                 genesis := i == 0 }],
     dictSet acc.2 node_name { status := "Running", index := i })

/-- The whole per-ordinal loop: Python `xrange(0, count)` is empty for
`count ≤ 0`, hence the fold over `List.range count.toNat`. -/
def startLoop (env : DriverEnv) (existing : List String) (count : Int)
    (nodes0 : List (String × NodeRecord)) :
    List StartAction × List (String × NodeRecord) :=
  (List.range count.toNat).foldl (startLoopStep env existing) ([], nodes0)

/-- The state document at the top of `do_cluster_start`: the loaded
document (or the fresh one when reading raised `IOError`), with the
`Nodes` mapping cleared when the recorded `State` is `"Stopped"`. -/
def loadedState (loaded : Option ClusterState) : ClusterState :=
  let state0 := loaded.getD freshState
  if state0.stateField = "Stopped" then { state0 with nodes := [] } else state0

/-- `do_cluster_start(args)`, as a function of the loaded `state.yaml`
document (`none` = the read raised `IOError`) and the driver environment:
Stopped-reset of `Nodes`, `Manage` resolution, transition of `State` to
`"Running"`, backend dispatch, `get_node_names`, the per-ordinal loop, the
`yaml.dump` of the final state, and the trailing `vnm.update()`. -/
def do_cluster_start (args : StartArgs) (loaded : Option ClusterState)
    (env : DriverEnv) : StartResult :=
  let state1 := loadedState loaded
  match resolveManage args state1 with
  | .error e => { actions := [], saved := none, error := some e }
  | .ok stateM =>
    let state2 := { stateM with stateField := "Running" }
    if state2.manage = some (some "docker") ∨ state2.manage = some (some "daemon") then
      match env.get_node_names with
      | .error e => { actions := [], saved := none, error := some (.mgmt e) }
      | .ok existing =>
        let r := startLoop env existing args.count state2.nodes
        { actions := r.1,
          saved := some { state2 with nodes := r.2 },
          error := match env.update with
                   | .error e => some (.mgmt e)
                   | .ok _ => none }
    else { actions := [], saved := none, error := some .invalidManage }

/-- Arguments of `cluster stop`: the positional `NODE_NAME` list. -/
structure StopArgs where
  node_names : List String
deriving Repr, DecidableEq

/-- Observable outcome of `do_cluster_stop`: the names for which a stop
action completed, in order, the document written back to `state.yaml`
(`none` when no write happened), and the error raised, if any. -/
structure StopResult where
  stopped : List String
  saved : Option ClusterState
  error : Option CliErr
deriving Repr, DecidableEq

/-- The `for node_name in node_names: node_command_generator.stop(node_name)`
loop of `do_cluster_stop`. The loop body has no exception handling, so the
first failing per-name stop aborts the remainder; the returned list holds
the names whose stop completed before that. -/
def stopFanout (env : DriverEnv) : List String → List String × Option CliErr
  | [] => ([], none)
  | n :: rest =>
    match env.stop_node n with
    | .error e => ([], some (.mgmt e))
    | .ok _ =>
      let r := stopFanout env rest
      (n :: r.1, r.2)

/-- The target-name resolution shared by `do_cluster_stop` and
`do_cluster_status`: the explicit argument list when non-empty, otherwise
the driver's live `vnm.get_node_names()`. -/
def resolveNames (explicit : List String) (env : DriverEnv) :
    Except String (List String) :=
  if explicit.length > 0 then .ok explicit else env.get_node_names

/-- `do_cluster_stop(args)`, as a function of the loaded `state.yaml`
document (`none` = the read raised `IOError`, re-raised as a CliException)
and the driver environment. `state['Manage']` is a plain dict lookup, so a
document without the `Manage` key raises `KeyError`; a null `Manage` or
`'docker'` selects the docker controller, `'daemon'` the daemon one, and
anything else raises the invalid-management CliException. The command never
writes `state.yaml` back. -/
def do_cluster_stop (args : StopArgs) (loaded : Option ClusterState)
    (env : DriverEnv) : StopResult :=
  match loaded with
  | none => { stopped := [], saved := none, error := some .ioError }
  | some state =>
    match state.manage with
    | none => { stopped := [], saved := none, error := some (.keyError "Manage") }
    | some m =>
      if m = none ∨ m = some "docker" ∨ m = some "daemon" then
        match resolveNames args.node_names env with
        | .error e => { stopped := [], saved := none, error := some (.mgmt e) }
        | .ok node_names =>
          match stopFanout env node_names with
          | (done, some e) => { stopped := done, saved := none, error := some e }
          | (done, none) =>
            { stopped := done, saved := none,
              error := match env.update with
                       | .error e => some (.mgmt e)
                       | .ok _ => none }
      else { stopped := [], saved := none, error := some .invalidManage }

/-- Arguments of `cluster status`: the positional `NODE_NAME` list and
`--manage`. -/
structure StatusArgs where
  node_names : List String
  manage : Option String
deriving Repr, DecidableEq

/-- Observable outcome of `do_cluster_status`: the `(name, status)` lines
printed, in order, and the error raised, if any. The command touches no
persisted state. -/
structure StatusResult where
  reports : List (String × String)
  error : Option CliErr
deriving Repr, DecidableEq

/-- The `for node_name in node_names: print ... vnm.status(node_name)` loop
of `do_cluster_status`. As in the stop loop, a per-name failure propagates
and aborts the remainder. -/
def statusFanout (env : DriverEnv) :
    List String → List (String × String) × Option CliErr
  | [] => ([], none)
  | n :: rest =>
    match env.status_node n with
    | .error e => ([], some (.mgmt e))
    | .ok st =>
      let r := statusFanout env rest
      ((n, st) :: r.1, r.2)

/-- `do_cluster_status(args)`: backend dispatch on `args.manage` (`None` or
`'docker'` selects docker, `'daemon'` the daemon controller, anything else
raises), target-name resolution, then the per-name status loop. No
persisted state is read or written. -/
def do_cluster_status (args : StatusArgs) (env : DriverEnv) : StatusResult :=
  if args.manage = none ∨ args.manage = some "docker" ∨ args.manage = some "daemon" then
    match resolveNames args.node_names env with
    | .error e => { reports := [], error := some (.mgmt e) }
    | .ok node_names =>
      match statusFanout env node_names with
      | (reports, err) => { reports := reports, error := err }
  else { reports := [], error := some .invalidManage }

/-! ### Decimal names: parse round-trip and injectivity of `nodeName` -/

/-- Numeric value of a digit character. -/
def charVal (c : Char) : Nat := c.toNat - 48

/-- Read a digit string back as a number (left fold, most significant
digit first). -/
def parseDec (l : List Char) : Nat := l.foldl (fun a c => 10 * a + charVal c) 0

theorem charVal_digitChar : ∀ d < 10, charVal (digitChar d) = d := by decide

theorem parseDec_append_singleton (xs : List Char) (c : Char) :
    parseDec (xs ++ [c]) = 10 * parseDec xs + charVal c := by
  simp [parseDec, List.foldl_append]

theorem foldl_replicate_zero (k : Nat) :
    List.foldl (fun a c => 10 * a + charVal c) 0 (List.replicate k '0') = 0 := by
  induction k with
  | zero => rfl
  | succ k ih => simpa [List.replicate_succ, charVal] using ih

theorem parseDec_replicate_zero_append (k : Nat) (l : List Char) :
    parseDec (List.replicate k '0' ++ l) = parseDec l := by
  simp [parseDec, List.foldl_append, foldl_replicate_zero]

theorem parseDec_decChars : ∀ fuel n, n < fuel → parseDec (decChars fuel n) = n := by
  intro fuel
  induction fuel with
  | zero => intro n hn; omega
  | succ fuel ih =>
    intro n hn
    by_cases h10 : n < 10
    · have : parseDec [digitChar n] = charVal (digitChar n) := by
        simp [parseDec]
      simp [decChars, h10, this, charVal_digitChar n h10]
    · have hdiv : n / 10 < fuel := by
        have h1 : n / 10 < n := Nat.div_lt_self (by omega) (by omega)
        omega
      have hrec := ih (n / 10) hdiv
      have hmod : n % 10 < 10 := Nat.mod_lt _ (by omega)
      simp only [decChars, if_neg h10]
      rw [parseDec_append_singleton, hrec, charVal_digitChar _ hmod]
      omega

theorem parseDec_padded (n : Nat) : parseDec (padZero3 (decimalChars n)) = n := by
  unfold padZero3 decimalChars
  rw [parseDec_replicate_zero_append]
  exact parseDec_decChars (n + 1) n (Nat.lt_succ_self n)

theorem nodeName_injective : Function.Injective nodeName := by
  intro i j h
  have hdata : "validator-".data ++ padZero3 (decimalChars i) =
      "validator-".data ++ padZero3 (decimalChars j) := congrArg String.data h
  have hpad : padZero3 (decimalChars i) = padZero3 (decimalChars j) :=
    List.append_cancel_left hdata
  have := congrArg parseDec hpad
  rwa [parseDec_padded, parseDec_padded] at this

/-! ### Lemmas about the `Nodes` dict operations -/

theorem lookupNode_dictSet_self (k : String) (v : NodeRecord) :
    ∀ m : List (String × NodeRecord), lookupNode (dictSet m k v) k = some v := by
  intro m
  induction m with
  | nil => simp [dictSet, lookupNode]
  | cons p rest ih =>
    obtain ⟨k', w⟩ := p
    by_cases hk : k' = k
    · simp [dictSet, hk, lookupNode]
    · simp [dictSet, hk, lookupNode, ih]

theorem lookupNode_dictSet_ne (k1 k2 : String) (v : NodeRecord) (hk : k1 ≠ k2) :
    ∀ m : List (String × NodeRecord),
      lookupNode (dictSet m k1 v) k2 = lookupNode m k2 := by
  intro m
  induction m with
  | nil => simp [dictSet, lookupNode, hk]
  | cons p rest ih =>
    obtain ⟨k', w⟩ := p
    by_cases h1 : k' = k1
    · subst h1
      simp [dictSet, lookupNode, hk]
    · simp [dictSet, h1, lookupNode, ih]

theorem mem_dictSet (k : String) (v : NodeRecord) :
    ∀ (m : List (String × NodeRecord)) (p : String × NodeRecord),
      p ∈ dictSet m k v → p ∈ m ∨ p = (k, v) := by
  intro m
  induction m with
  | nil => intro p hp; simp [dictSet] at hp; exact Or.inr hp
  | cons q rest ih =>
    obtain ⟨k', w⟩ := q
    intro p hp
    by_cases h1 : k' = k
    · simp only [dictSet, if_pos h1, List.mem_cons] at hp
      rcases hp with h | h
      · exact Or.inr h
      · exact Or.inl (List.mem_cons_of_mem _ h)
    · simp only [dictSet, if_neg h1, List.mem_cons] at hp
      rcases hp with h | h
      · exact Or.inl (by simp [h])
      · rcases ih p h with h2 | h2
        · exact Or.inl (List.mem_cons_of_mem _ h2)
        · exact Or.inr h2

/-! ### Lemmas about the start-reconciliation loop -/

/-- The skip condition of the per-ordinal loop: the deterministic name for
`i` is already known to the driver and observed as running. -/
def skipped (env : DriverEnv) (existing : List String) (i : Nat) : Prop :=
  nodeName i ∈ existing ∧ env.is_running (nodeName i) = true

instance (env : DriverEnv) (existing : List String) (i : Nat) :
    Decidable (skipped env existing i) := by
  unfold skipped; infer_instance

/-- The start action issued for ordinal `i`: fixed ports, genesis iff `i = 0`. -/
def startActionFor (i : Nat) : StartAction :=
  { name := nodeName i, http_port := 8800, gossip_port := 5500, genesis := i == 0 }

theorem startLoopStep_skip (env : DriverEnv) (existing : List String)
    (acc : List StartAction × List (String × NodeRecord)) (i : Nat)
    (h : skipped env existing i) : startLoopStep env existing acc i = acc := by
  unfold skipped at h
  simp [startLoopStep, h]

theorem startLoopStep_not_skip (env : DriverEnv) (existing : List String)
    (acc : List StartAction × List (String × NodeRecord)) (i : Nat)
    (h : ¬ skipped env existing i) :
    startLoopStep env existing acc i =
      (acc.1 ++ [startActionFor i],
       dictSet acc.2 (nodeName i) { status := "Running", index := i }) := by
  unfold skipped at h
  simp [startLoopStep, h, startActionFor]

theorem startLoop_fold_succ (env : DriverEnv) (existing : List String) (n : Nat)
    (acc : List StartAction × List (String × NodeRecord)) :
    (List.range (n + 1)).foldl (startLoopStep env existing) acc =
      startLoopStep env existing
        ((List.range n).foldl (startLoopStep env existing) acc) n := by
  rw [List.range_succ, List.foldl_append, List.foldl_cons, List.foldl_nil]

/-- Every action produced by the loop belongs to a non-skipped ordinal below
the count, and is exactly the fixed-ports action with genesis iff ordinal 0. -/
theorem startLoop_actions_mem (env : DriverEnv) (existing : List String) :
    ∀ (n : Nat) (acc : List StartAction × List (String × NodeRecord))
      (a : StartAction),
      a ∈ ((List.range n).foldl (startLoopStep env existing) acc).1 →
      a ∈ acc.1 ∨ ∃ i, i < n ∧ ¬ skipped env existing i ∧ a = startActionFor i := by
  intro n
  induction n with
  | zero => intro acc a ha; exact Or.inl (by simpa using ha)
  | succ n ih =>
    intro acc a ha
    rw [startLoop_fold_succ] at ha
    by_cases hs : skipped env existing n
    · rw [startLoopStep_skip _ _ _ _ hs] at ha
      rcases ih acc a ha with h | ⟨i, hi, hns, rfl⟩
      · exact Or.inl h
      · exact Or.inr ⟨i, by omega, hns, rfl⟩
    · rw [startLoopStep_not_skip _ _ _ _ hs] at ha
      rcases List.mem_append.1 ha with h | h
      · rcases ih acc a h with h2 | ⟨i, hi, hns, rfl⟩
        · exact Or.inl h2
        · exact Or.inr ⟨i, by omega, hns, rfl⟩
      · exact Or.inr ⟨n, by omega, hs, by simpa using h⟩

/-- Actions already accumulated survive the rest of the loop. -/
theorem startLoop_actions_mono (env : DriverEnv) (existing : List String) :
    ∀ (n : Nat) (acc : List StartAction × List (String × NodeRecord))
      (a : StartAction), a ∈ acc.1 →
      a ∈ ((List.range n).foldl (startLoopStep env existing) acc).1 := by
  intro n
  induction n with
  | zero => intro acc a ha; simpa using ha
  | succ n ih =>
    intro acc a ha
    rw [startLoop_fold_succ]
    by_cases hs : skipped env existing n
    · rw [startLoopStep_skip _ _ _ _ hs]
      exact ih acc a ha
    · rw [startLoopStep_not_skip _ _ _ _ hs]
      exact List.mem_append_left _ (ih acc a ha)

/-- A non-skipped ordinal below the count gets its start action issued. -/
theorem startLoop_action_issued (env : DriverEnv) (existing : List String) :
    ∀ (n i : Nat), i < n → ¬ skipped env existing i →
      ∀ acc, startActionFor i ∈
        ((List.range n).foldl (startLoopStep env existing) acc).1 := by
  intro n
  induction n with
  | zero => intro i hi; omega
  | succ n ih =>
    intro i hi hns acc
    rw [startLoop_fold_succ]
    rcases Nat.lt_succ_iff_lt_or_eq.1 hi with h | rfl
    · by_cases hs : skipped env existing n
      · rw [startLoopStep_skip _ _ _ _ hs]
        exact ih i h hns acc
      · rw [startLoopStep_not_skip _ _ _ _ hs]
        exact List.mem_append_left _ (ih i h hns acc)
    · rw [startLoopStep_not_skip _ _ _ _ hns]
      exact List.mem_append_right _ (by simp)

/-- When every ordinal below the count is skipped, the loop is a no-op. -/
theorem startLoop_all_skipped (env : DriverEnv) (existing : List String) :
    ∀ (n : Nat), (∀ i, i < n → skipped env existing i) →
      ∀ acc, (List.range n).foldl (startLoopStep env existing) acc = acc := by
  intro n
  induction n with
  | zero => intro _ acc; rfl
  | succ n ih =>
    intro h acc
    rw [startLoop_fold_succ, ih (fun i hi => h i (by omega)) acc,
        startLoopStep_skip _ _ _ _ (h n (by omega))]

/-- A non-skipped ordinal below the count ends up recorded in the `Nodes`
mapping as Running with its index. -/
theorem startLoop_lookup (env : DriverEnv) (existing : List String) :
    ∀ (n i : Nat), i < n → ¬ skipped env existing i →
      ∀ acc, lookupNode
          ((List.range n).foldl (startLoopStep env existing) acc).2 (nodeName i) =
        some { status := "Running", index := i } := by
  intro n
  induction n with
  | zero => intro i hi; omega
  | succ n ih =>
    intro i hi hns acc
    rw [startLoop_fold_succ]
    rcases Nat.lt_succ_iff_lt_or_eq.1 hi with h | rfl
    · by_cases hs : skipped env existing n
      · rw [startLoopStep_skip _ _ _ _ hs]
        exact ih i h hns acc
      · rw [startLoopStep_not_skip _ _ _ _ hs]
        have hne : nodeName n ≠ nodeName i := by
          intro he
          exact absurd (nodeName_injective he) (by omega)
        exact (lookupNode_dictSet_ne _ _ _ hne _).trans (ih i h hns acc)
    · rw [startLoopStep_not_skip _ _ _ _ hns]
      exact lookupNode_dictSet_self _ _ _

/-- Every `Nodes` entry produced by the loop is either inherited from the
accumulator or the canonical Running record of an ordinal below the count. -/
theorem startLoop_nodes_mem (env : DriverEnv) (existing : List String) :
    ∀ (n : Nat) (acc : List StartAction × List (String × NodeRecord))
      (p : String × NodeRecord),
      p ∈ ((List.range n).foldl (startLoopStep env existing) acc).2 →
      p ∈ acc.2 ∨
        ∃ i, i < n ∧ p = (nodeName i, { status := "Running", index := i }) := by
  intro n
  induction n with
  | zero => intro acc p hp; exact Or.inl (by simpa using hp)
  | succ n ih =>
    intro acc p hp
    rw [startLoop_fold_succ] at hp
    by_cases hs : skipped env existing n
    · rw [startLoopStep_skip _ _ _ _ hs] at hp
      rcases ih acc p hp with h | ⟨i, hi, rfl⟩
      · exact Or.inl h
      · exact Or.inr ⟨i, by omega, rfl⟩
    · rw [startLoopStep_not_skip _ _ _ _ hs] at hp
      rcases mem_dictSet _ _ _ _ hp with h | h
      · rcases ih acc p h with h2 | ⟨i, hi, rfl⟩
        · exact Or.inl h2
        · exact Or.inr ⟨i, by omega, rfl⟩
      · exact Or.inr ⟨n, by omega, h⟩

/-- `resolveManage` never touches the `State` or `Nodes` fields. -/
theorem resolveManage_ok_fields (args : StartArgs) (s s2 : ClusterState)
    (h : resolveManage args s = .ok s2) :
    s2.stateField = s.stateField ∧ s2.nodes = s.nodes := by
  unfold resolveManage at h
  split at h
  · cases h; exact ⟨rfl, rfl⟩
  · split at h
    · split at h
      · cases h
      · cases h; exact ⟨rfl, rfl⟩
    · cases h; exact ⟨rfl, rfl⟩

/-! ### Run characterizations of `do_cluster_start` -/

/-- When the `Manage` resolution succeeds with a valid backend and the
driver lists the known nodes, `do_cluster_start` runs the per-ordinal loop
on the resolved state and persists the result. -/
theorem do_cluster_start_run (args : StartArgs) (loaded : Option ClusterState)
    (env : DriverEnv) (stateM : ClusterState) (existing : List String)
    (hres : resolveManage args (loadedState loaded) = .ok stateM)
    (hman : stateM.manage = some (some "docker") ∨
      stateM.manage = some (some "daemon"))
    (hex : env.get_node_names = .ok existing) :
    do_cluster_start args loaded env =
      { actions := (startLoop env existing args.count stateM.nodes).1,
        saved := some { stateField := "Running", manage := stateM.manage,
                        nodes := (startLoop env existing args.count stateM.nodes).2 },
        error := match env.update with
                 | .error e => some (.mgmt e)
                 | .ok _ => none } := by
  simp only [do_cluster_start, hres, hex]
  rw [if_pos hman]

/-- In every error branch before the loop, and in the loop itself when all
ordinals are skipped, `do_cluster_start` issues no start action. -/
theorem do_cluster_start_actions_all_skipped (args : StartArgs)
    (loaded : Option ClusterState) (env : DriverEnv) (ex : List String)
    (hex : env.get_node_names = .ok ex)
    (hall : ∀ i, i < args.count.toNat → skipped env ex i) :
    (do_cluster_start args loaded env).actions = [] := by
  simp only [do_cluster_start, hex]
  split
  · rfl
  · split
    · show (startLoop env ex args.count _).1 = []
      unfold startLoop
      rw [startLoop_all_skipped env ex args.count.toNat hall _]
    · rfl

/-- Every start action `do_cluster_start` issues is the canonical action of
some ordinal below the count. -/
theorem do_cluster_start_actions_mem (args : StartArgs)
    (loaded : Option ClusterState) (env : DriverEnv) (a : StartAction)
    (ha : a ∈ (do_cluster_start args loaded env).actions) :
    ∃ i, i < args.count.toNat ∧ a = startActionFor i := by
  simp only [do_cluster_start] at ha
  split at ha
  · simp at ha
  · split at ha
    · split at ha
      · simp at ha
      · rcases startLoop_actions_mem _ _ args.count.toNat _ a ha with h | ⟨i, hi, _, rfl⟩
        · simp at h
        · exact ⟨i, hi, rfl⟩
    · simp at ha

/-! ### Concrete driver environments used to instantiate the theorems -/

/-- A quiet driver: no known nodes, nothing running, every call succeeds. -/
def envOk : DriverEnv :=
  { get_node_names := .ok []
  , is_running := fun _ => false
  , update := .ok ()
  , stop_node := fun _ => .ok ()
  , status_node := fun _ => .ok "Running" }

/-- A driver that already knows `validator-000` and reports it running. -/
def envPre : DriverEnv :=
  { get_node_names := .ok [nodeName 0]
  , is_running := fun _ => true
  , update := .ok ()
  , stop_node := fun _ => .ok ()
  , status_node := fun _ => .ok "Running" }

/-- A driver that already knows `validator-000` and `validator-001` and
reports everything running. -/
def envPre2 : DriverEnv :=
  { get_node_names := .ok [nodeName 0, nodeName 1]
  , is_running := fun _ => true
  , update := .ok ()
  , stop_node := fun _ => .ok ()
  , status_node := fun _ => .ok "Running" }

/-- A driver that knows nodes `x` and `y` and whose per-name operations all
succeed. -/
def envTwo : DriverEnv :=
  { get_node_names := .ok ["x", "y"]
  , is_running := fun _ => false
  , update := .ok ()
  , stop_node := fun _ => .ok ()
  , status_node := fun _ => .ok "Running" }

/-- A driver whose per-name stop and status operations fail exactly on the
name `b`. -/
def envMidFail : DriverEnv :=
  { get_node_names := .ok []
  , is_running := fun _ => false
  , update := .ok ()
  , stop_node := fun n => if n = "b" then .error "boom" else .ok ()
  , status_node := fun n => if n = "b" then .error "boom" else .ok "Running" }

/-! ### C1: backend lock while Running -/

/-- C1: when a backend is requested, a different backend is recorded in the
persisted document and its lifecycle is Running, `do_cluster_start` raises
the two-Manage-types ConflictError before issuing any action and before
writing `state.yaml`, so the persisted state (in particular the recorded
backend) is unchanged by the failed attempt. -/
theorem start_backend_conflict (args : StartArgs) (st : ClusterState)
    (env : DriverEnv) (b a : String)
    (hrec : st.manage = some (some b)) (hreq : args.manage = some a)
    (hne : b ≠ a) (hrun : st.stateField = "Running") :
    do_cluster_start args (some st) env =
      { actions := [], saved := none, error := some (.conflict (some b)) } := by
  have hls : loadedState (some st) = st := by
    simp [loadedState, hrun]
  have hres : resolveManage args st = .error (.conflict (some b)) := by
    simp only [resolveManage, hrec, hreq]
    rw [if_pos ⟨by simp [hne], hrun⟩]
  simp only [do_cluster_start, hls, hres]

theorem start_backend_conflict_witness :
    do_cluster_start { count := 3, manage := some "daemon" }
        (some { stateField := "Running", manage := some (some "docker"),
                nodes := [] }) envOk =
      { actions := [], saved := none,
        error := some (.conflict (some "docker")) } :=
  start_backend_conflict _ _ envOk "docker" "daemon" rfl rfl (by decide) rfl

/-! ### C4: genesis iff ordinal 0 -/

/-- C4: for a start invocation with positive count, an issued start action
carries genesis=true exactly when it is the action for the node at ordinal
0; every action for a higher ordinal carries genesis=false, the flag being
a function of the ordinal only. -/
theorem start_genesis_iff (args : StartArgs) (loaded : Option ClusterState)
    (env : DriverEnv) (_hN : 1 ≤ args.count) (a : StartAction)
    (ha : a ∈ (do_cluster_start args loaded env).actions) :
    a.genesis = true ↔ a.name = nodeName 0 := by
  rcases do_cluster_start_actions_mem args loaded env a ha with ⟨i, hi, rfl⟩
  constructor
  · intro hg
    have h0 : i = 0 := by simpa [startActionFor] using hg
    simp [startActionFor, h0]
  · intro hn
    have h0 : nodeName i = nodeName 0 := by simpa [startActionFor] using hn
    have := nodeName_injective h0
    simp [startActionFor, this]

theorem start_genesis_iff_witness :
    1 ≤ (1 : Int) ∧ ((startActionFor 0).genesis = true ↔
      (startActionFor 0).name = nodeName 0) :=
  ⟨by decide,
   start_genesis_iff { count := 1, manage := some "daemon" } none envOk
     (by decide) (startActionFor 0) (by decide)⟩

/-! ### C2: which reconciled nodes get recorded -/

/-- C2 fails on the code: a successful start with count 1 against a driver
that already knows `validator-000` as running skips the node via `continue`
before the recording line, so the persisted `Nodes` mapping does not
contain it (here the mapping lookup of its name yields `none` in the saved
document, although the command succeeded). -/
theorem start_skipped_not_recorded :
    (do_cluster_start { count := 1, manage := some "daemon" } none envPre).error
        = none ∧
    ((do_cluster_start { count := 1, manage := some "daemon" } none
        envPre).saved.map (fun s => lookupNode s.nodes (nodeName 0)))
        = some none := by
  decide

/-- C2 (amended): after a start whose state was persisted, every ordinal
below the count for which a start action was issued (i.e. that was not
skipped as already known and running) is recorded in the persisted `Nodes`
mapping with status Running and its index; skipped nodes are left with
whatever record the loaded (and possibly Stopped-reset) document had. -/
theorem start_records_issued_nodes (args : StartArgs)
    (loaded : Option ClusterState) (env : DriverEnv) (existing : List String)
    (s : ClusterState) (i : Nat)
    (hex : env.get_node_names = .ok existing)
    (hi : i < args.count.toNat)
    (hns : ¬ skipped env existing i)
    (hs : (do_cluster_start args loaded env).saved = some s) :
    lookupNode s.nodes (nodeName i) = some { status := "Running", index := i } := by
  simp only [do_cluster_start, hex] at hs
  split at hs
  · cases hs
  · split at hs
    · cases hs
      exact startLoop_lookup env existing args.count.toNat i hi hns _
    · cases hs

theorem start_records_issued_nodes_witness :
    lookupNode [(nodeName 0, { status := "Running", index := 0 })]
        (nodeName 0) = some { status := "Running", index := 0 } :=
  start_records_issued_nodes { count := 1, manage := some "daemon" } none envOk
    [] { stateField := "Running", manage := some (some "daemon"),
         nodes := [(nodeName 0, { status := "Running", index := 0 })] }
    0 rfl (by decide) (by decide) (by decide)

/-! ### C5: fresh-epoch reset -/

/-- C5: when the loaded (or initialized) document records lifecycle
Stopped, the `Nodes` mapping is reset before reconciliation, so every entry
of the persisted mapping after the command is the canonical Running record
of an ordinal below the new invocation's count — no record of a prior epoch
survives, whatever the new count is. -/
theorem start_fresh_epoch (args : StartArgs) (loaded : Option ClusterState)
    (env : DriverEnv) (s : ClusterState) (p : String × NodeRecord)
    (hstop : (loaded.getD freshState).stateField = "Stopped")
    (hs : (do_cluster_start args loaded env).saved = some s)
    (hp : p ∈ s.nodes) :
    ∃ i, i < args.count.toNat ∧
      p = (nodeName i, { status := "Running", index := i }) := by
  have hnodes : (loadedState loaded).nodes = [] := by
    simp [loadedState, hstop]
  simp only [do_cluster_start] at hs
  split at hs
  · cases hs
  · next stateM hres =>
    have hM : stateM.nodes = [] :=
      (resolveManage_ok_fields args _ stateM hres).2.trans hnodes
    split at hs
    · split at hs
      · cases hs
      · cases hs
        rcases startLoop_nodes_mem env _ args.count.toNat _ p hp with h | ⟨i, hi, rfl⟩
        · rw [hM] at h
          simp at h
        · exact ⟨i, hi, rfl⟩
    · cases hs

theorem start_fresh_epoch_witness :
    ∃ i, i < (1 : Int).toNat ∧
      (((nodeName 0, { status := "Running", index := 0 }) : String × NodeRecord)
        = (nodeName i, { status := "Running", index := i })) :=
  start_fresh_epoch { count := 1, manage := some "daemon" }
    (some { stateField := "Stopped", manage := some (some "daemon"),
            nodes := [(nodeName 0, { status := "Running", index := 0 }),
                      (nodeName 1, { status := "Running", index := 1 })] })
    envOk
    { stateField := "Running", manage := some (some "daemon"),
      nodes := [(nodeName 0, { status := "Running", index := 0 })] }
    (nodeName 0, { status := "Running", index := 0 })
    rfl (by decide) (by decide)

/-! ### C10: non-positive count -/

/-- A Stopped document with a leftover node record, used to instantiate the
non-positive-count theorem. -/
def docStoppedLeftover : ClusterState :=
  { stateField := "Stopped", manage := none,
    nodes := [("leftover", { status := "Running", index := 7 })] }

/-- C10: a start invocation with count ≤ 0 issues no start action (the
per-ordinal loop is empty), yet still sets the persisted lifecycle to
Running — clearing the `Nodes` mapping when the prior lifecycle was
Stopped — and persists that state (shown here for a requested daemon
backend that does not conflict with the loaded document). -/
theorem start_nonpositive_count (args : StartArgs) (loaded : Option ClusterState)
    (env : DriverEnv) (ex : List String)
    (hc : args.count ≤ 0)
    (ham : args.manage = some "daemon")
    (hm : (loadedState loaded).manage = none ∨
      (loadedState loaded).manage = some (some "daemon"))
    (hex : env.get_node_names = .ok ex)
    (hupd : env.update = .ok ()) :
    do_cluster_start args loaded env =
      { actions := [],
        saved := some { stateField := "Running", manage := some (some "daemon"),
                        nodes := (loadedState loaded).nodes },
        error := none } ∧
    ((loaded.getD freshState).stateField = "Stopped" →
      (loadedState loaded).nodes = []) := by
  have htn : args.count.toNat = 0 := Int.toNat_of_nonpos hc
  have hloop : ∀ nodes0, startLoop env ex args.count nodes0 = ([], nodes0) := by
    intro nodes0
    unfold startLoop
    rw [htn, List.range_zero, List.foldl_nil]
  constructor
  · rcases hm with hm | hm
    · have hres : resolveManage args (loadedState loaded) =
          .ok { loadedState loaded with manage := some (some "daemon") } := by
        simp only [resolveManage, hm, ham]
        rfl
      rw [do_cluster_start_run args loaded env _ ex hres (Or.inr rfl) hex]
      rw [hloop, hupd]
    · have hres : resolveManage args (loadedState loaded) =
          .ok (loadedState loaded) := by
        simp only [resolveManage, hm, ham]
        rw [if_neg]
        simp
      rw [do_cluster_start_run args loaded env _ ex hres (Or.inr hm) hex]
      rw [hloop, hupd, hm]
  · intro hstop
    simp [loadedState, hstop]

theorem start_nonpositive_count_witness :
    (do_cluster_start { count := 0, manage := some "daemon" }
        (some docStoppedLeftover) envOk =
      { actions := [],
        saved := some { stateField := "Running", manage := some (some "daemon"),
                        nodes := (loadedState (some docStoppedLeftover)).nodes },
        error := none }) ∧
    (loadedState (some docStoppedLeftover)).nodes = [] :=
  have h := start_nonpositive_count { count := 0, manage := some "daemon" }
    (some docStoppedLeftover) envOk [] (by decide) rfl (Or.inl (by decide))
    rfl rfl
  ⟨h.1, h.2 rfl⟩

/-! ### C3: idempotent start -/

/-- C3: start is idempotent. Run start once (first invocation resolves its
backend and lists the known nodes successfully); run it again with the same
arguments against a driver that reports every node started by the first
invocation as known and running, and that still reports every node the
first invocation skipped as known and running. The second invocation issues
zero start actions: per node, a name already known to the driver and
observed as running is skipped as a no-op. -/
theorem start_idempotent (args : StartArgs)
    (loaded1 loaded2 : Option ClusterState) (env1 env2 : DriverEnv)
    (stateM1 : ClusterState) (ex1 ex2 : List String)
    (_hN : 1 ≤ args.count)
    (hres1 : resolveManage args (loadedState loaded1) = .ok stateM1)
    (hman1 : stateM1.manage = some (some "docker") ∨
      stateM1.manage = some (some "daemon"))
    (hex1 : env1.get_node_names = .ok ex1)
    (hex2 : env2.get_node_names = .ok ex2)
    (hstarted : ∀ a ∈ (do_cluster_start args loaded1 env1).actions,
      a.name ∈ ex2 ∧ env2.is_running a.name = true)
    (hkept : ∀ i : Nat, skipped env1 ex1 i → skipped env2 ex2 i) :
    (do_cluster_start args loaded2 env2).actions = [] := by
  apply do_cluster_start_actions_all_skipped args loaded2 env2 ex2 hex2
  intro i hi
  by_cases hs : skipped env1 ex1 i
  · exact hkept i hs
  · have hissued : startActionFor i ∈ (do_cluster_start args loaded1 env1).actions := by
      rw [do_cluster_start_run args loaded1 env1 stateM1 ex1 hres1 hman1 hex1]
      exact startLoop_action_issued env1 ex1 args.count.toNat i hi hs _
    have h := hstarted _ hissued
    exact ⟨h.1, h.2⟩

theorem start_idempotent_witness :
    (do_cluster_start { count := 2, manage := some "daemon" } none envPre2).actions
      = [] :=
  start_idempotent { count := 2, manage := some "daemon" } none none envOk
    envPre2 { stateField := "Stopped", manage := some (some "daemon"), nodes := [] }
    [] [nodeName 0, nodeName 1] (by decide) rfl (Or.inr rfl) rfl rfl
    (by decide) (fun i h => absurd h.1 (List.not_mem_nil _))

/-! ### Lemmas about the stop/status fan-out loops -/

theorem stopFanout_all_ok (env : DriverEnv)
    (h : ∀ n, env.stop_node n = .ok ()) :
    ∀ names, stopFanout env names = (names, none) := by
  intro names
  induction names with
  | nil => rfl
  | cons n rest ih => simp [stopFanout, h n, ih]

theorem statusFanout_all_ok (env : DriverEnv) (f : String → String)
    (h : ∀ n, env.status_node n = .ok (f n)) :
    ∀ names, statusFanout env names = (names.map (fun n => (n, f n)), none) := by
  intro names
  induction names with
  | nil => rfl
  | cons n rest ih => simp [statusFanout, h n, ih]

theorem stopFanout_first_failure (env : DriverEnv) (bad : String) (e : String)
    (post : List String) (hbad : env.stop_node bad = .error e) :
    ∀ pre, (∀ n ∈ pre, env.stop_node n = .ok ()) →
      stopFanout env (pre ++ bad :: post) = (pre, some (.mgmt e)) := by
  intro pre
  induction pre with
  | nil => intro _; simp [stopFanout, hbad]
  | cons n rest ih =>
    intro hpre
    have hn : env.stop_node n = .ok () := hpre n (by simp)
    have hrest := ih (fun m hm => hpre m (by simp [hm]))
    simp [stopFanout, hn, hrest]

theorem statusFanout_first_failure (env : DriverEnv) (bad : String) (e : String)
    (post : List String) (f : String → String)
    (hbad : env.status_node bad = .error e) :
    ∀ pre, (∀ n ∈ pre, env.status_node n = .ok (f n)) →
      statusFanout env (pre ++ bad :: post) =
        (pre.map (fun n => (n, f n)), some (.mgmt e)) := by
  intro pre
  induction pre with
  | nil => intro _; simp [statusFanout, hbad]
  | cons n rest ih =>
    intro hpre
    have hn : env.status_node n = .ok (f n) := hpre n (by simp)
    have hrest := ih (fun m hm => hpre m (by simp [hm]))
    simp [statusFanout, hn, hrest]

/-! ### C6: stop does not persist -/

/-- C6 fails on the code: a stop invocation that issues its stop action and
settles successfully (no error) still does not write `state.yaml` back —
there is no persistence step in `do_cluster_stop` at all, so in particular
the claim that the updated state is persisted after the settle step is
false at this input. (Lifecycle is indeed not reset — nothing is written.) -/
theorem stop_does_not_persist :
    (do_cluster_stop { node_names := [nodeName 0] }
        (some { stateField := "Running", manage := some (some "daemon"),
                nodes := [(nodeName 0, { status := "Running", index := 0 })] })
        envOk).error = none ∧
    (do_cluster_stop { node_names := [nodeName 0] }
        (some { stateField := "Running", manage := some (some "daemon"),
                nodes := [(nodeName 0, { status := "Running", index := 0 })] })
        envOk).saved = none := by
  decide

/-- C6 (amended): after issuing the stop actions and running the driver
settle step, `do_cluster_stop` never writes the cluster state back to the
state store — the persisted document, and with it the recorded lifecycle,
is untouched by the command on every input and on every path. -/
theorem stop_never_persists (args : StopArgs) (loaded : Option ClusterState)
    (env : DriverEnv) :
    (do_cluster_stop args loaded env).saved = none := by
  unfold do_cluster_stop
  split
  · rfl
  · split
    · rfl
    · split
      · split
        · rfl
        · split <;> rfl
      · rfl

/-! ### C7: document without a Manage key crashes stop -/

/-- C7: the claim matches the author's evident intent (the very next line
tests `state['Manage'] is None` to default the backend), but the code reads
`state['Manage']` with a plain dict subscript, so a document that lacks the
`Manage` key entirely raises an uncaught `KeyError` instead of defaulting:
evaluating the command on such a document yields the KeyError outcome and
no stop action. -/
theorem stop_missing_manage_key_crashes :
    do_cluster_stop { node_names := [] }
        (some { stateField := "Running", manage := none, nodes := [] }) envOk =
      { stopped := [], saved := none, error := some (.keyError "Manage") } := by
  decide

/-! ### C8: live name resolution for stop and status -/

/-- C8: with an empty explicit name list, stop and status resolve their
targets to exactly the driver's live `get_node_names` result — whatever the
persisted `Nodes` record contains — and with a non-empty explicit list they
target exactly the given names. -/
theorem stop_status_name_resolution (st : ClusterState) (env : DriverEnv)
    (ex names : List String) (f : String → String)
    (hm : st.manage = some (some "daemon"))
    (hex : env.get_node_names = .ok ex)
    (hstop : ∀ n, env.stop_node n = .ok ())
    (hupd : env.update = .ok ())
    (hstat : ∀ n, env.status_node n = .ok (f n))
    (hne : names ≠ []) :
    ((do_cluster_stop { node_names := [] } (some st) env).stopped = ex ∧
     (do_cluster_status { node_names := [], manage := some "daemon" }
        env).reports.map Prod.fst = ex) ∧
    ((do_cluster_stop { node_names := names } (some st) env).stopped = names ∧
     (do_cluster_status { node_names := names, manage := some "daemon" }
        env).reports.map Prod.fst = names) := by
  have hlen : names.length > 0 := List.length_pos.2 hne
  refine ⟨⟨?_, ?_⟩, ?_, ?_⟩
  · simp only [do_cluster_stop, hm, resolveNames, hex]
    simp [stopFanout_all_ok env hstop ex, hupd]
  · simp only [do_cluster_status, resolveNames, hex]
    have hcomp : (Prod.fst ∘ fun n : String => (n, f n)) = id := rfl
    simp [statusFanout_all_ok env f hstat ex, hcomp]
  · simp only [do_cluster_stop, hm, resolveNames]
    rw [if_pos hlen]
    simp [stopFanout_all_ok env hstop names, hupd]
  · simp only [do_cluster_status, resolveNames]
    rw [if_pos hlen]
    have hcomp : (Prod.fst ∘ fun n : String => (n, f n)) = id := rfl
    simp [statusFanout_all_ok env f hstat names, hcomp]

theorem stop_status_name_resolution_witness :
    ((do_cluster_stop { node_names := [] }
        (some { stateField := "Running", manage := some (some "daemon"),
                nodes := [("stale", { status := "Running", index := 0 })] })
        envTwo).stopped = ["x", "y"] ∧
     (do_cluster_status { node_names := [], manage := some "daemon" }
        envTwo).reports.map Prod.fst = ["x", "y"]) ∧
    ((do_cluster_stop { node_names := ["a"] }
        (some { stateField := "Running", manage := some (some "daemon"),
                nodes := [("stale", { status := "Running", index := 0 })] })
        envTwo).stopped = ["a"] ∧
     (do_cluster_status { node_names := ["a"], manage := some "daemon" }
        envTwo).reports.map Prod.fst = ["a"]) :=
  stop_status_name_resolution
    { stateField := "Running", manage := some (some "daemon"),
      nodes := [("stale", { status := "Running", index := 0 })] }
    envTwo ["x", "y"] ["a"] (fun _ => "Running") rfl rfl (fun _ => rfl) rfl
    (fun _ => rfl) (by decide)

/-! ### C9: per-name failures abort the fan-out -/

/-- C9 fails on the code: with three target names where the per-name
operation fails on the middle one, the stop loop issues a stop only for the
first name and the status loop reports only the first name — the third name
is never processed, because the loops have no per-name exception handling
and the first failure aborts the rest of the fan-out. -/
theorem stop_status_fanout_aborts :
    (do_cluster_stop { node_names := ["a", "b", "c"] }
        (some { stateField := "Running", manage := some (some "daemon"),
                nodes := [] }) envMidFail).stopped = ["a"] ∧
    (do_cluster_stop { node_names := ["a", "b", "c"] }
        (some { stateField := "Running", manage := some (some "daemon"),
                nodes := [] }) envMidFail).error = some (.mgmt "boom") ∧
    (do_cluster_status { node_names := ["a", "b", "c"], manage := some "daemon" }
        envMidFail).reports = [("a", "Running")] := by
  decide

/-- C9 (amended): a failing per-name driver operation aborts the stop or
status fan-out at that name: the names before it are processed, the failure
is surfaced as the command's error, and the names after it are not
processed (no per-name failure isolation). -/
theorem per_name_failure_aborts (st : ClusterState) (env : DriverEnv)
    (pre post : List String) (bad : String) (e : String) (f : String → String)
    (hm : st.manage = some (some "daemon"))
    (hpre : ∀ n ∈ pre, env.stop_node n = .ok ())
    (hbad : env.stop_node bad = .error e)
    (hpres : ∀ n ∈ pre, env.status_node n = .ok (f n))
    (hbads : env.status_node bad = .error e) :
    ((do_cluster_stop { node_names := pre ++ bad :: post } (some st) env).stopped
        = pre ∧
     (do_cluster_stop { node_names := pre ++ bad :: post } (some st) env).error
        = some (.mgmt e)) ∧
    ((do_cluster_status ⟨pre ++ bad :: post, some "daemon"⟩ env).reports = pre.map (fun n => (n, f n)) ∧
     (do_cluster_status ⟨pre ++ bad :: post, some "daemon"⟩ env).error = some (.mgmt e)) := by
  have hlen : (pre ++ bad :: post).length > 0 := by simp
  constructor
  · constructor
    · simp only [do_cluster_stop, hm, resolveNames]
      rw [if_pos hlen]
      simp [stopFanout_first_failure env bad e post hbad pre hpre]
    · simp only [do_cluster_stop, hm, resolveNames]
      rw [if_pos hlen]
      simp [stopFanout_first_failure env bad e post hbad pre hpre]
  · constructor
    · simp only [do_cluster_status, resolveNames]
      rw [if_pos hlen]
      simp [statusFanout_first_failure env bad e post f hbads pre hpres]
    · simp only [do_cluster_status, resolveNames]
      rw [if_pos hlen]
      simp [statusFanout_first_failure env bad e post f hbads pre hpres]

theorem per_name_failure_aborts_witness :
    ((do_cluster_stop { node_names := ["a"] ++ "b" :: ["c"] }
        (some { stateField := "Running", manage := some (some "daemon"),
                nodes := [] }) envMidFail).stopped = ["a"] ∧
     (do_cluster_stop { node_names := ["a"] ++ "b" :: ["c"] }
        (some { stateField := "Running", manage := some (some "daemon"),
                nodes := [] }) envMidFail).error = some (.mgmt "boom")) ∧
    ((do_cluster_status ⟨["a"] ++ "b" :: ["c"], some "daemon"⟩ envMidFail).reports =
        (["a"].map (fun n => (n, "Running"))) ∧
     (do_cluster_status ⟨["a"] ++ "b" :: ["c"], some "daemon"⟩ envMidFail).error = some (.mgmt "boom")) :=
  per_name_failure_aborts
    { stateField := "Running", manage := some (some "daemon"), nodes := [] }
    envMidFail ["a"] ["c"] "b" "boom" (fun _ => "Running") rfl
    (by intro n hn; rw [List.mem_singleton] at hn; subst hn; rfl) rfl
    (by intro n hn; rw [List.mem_singleton] at hn; subst hn; rfl) rfl

end SawtoothCluster
